import Mathlib

/-!
Verification development for the singularitychecker redemption-code
validation service.  Python source files are shallowly embedded: free-form
text (bodies, URLs, patterns, reasons are ASCII here) is `List Char`,
status labels are `String`, machine integers are `Nat`/`Int`, fallible
operations return `Option`/`Except`, and the durable SQLite store is an
explicit record of job and result rows.
-/

namespace RedeemChecker

/-! ### Python string primitives (ASCII fragment)

`str.lower`, `str.strip` and the `in` substring operator, as used by
`app/services/validator.py`.  Python's Unicode behaviour outside ASCII is
not modelled: all text is taken from the basic latin range.
-/

/-- Python `str.lower` on one character; for ASCII this is `Char.toLower`. -/
def pyLower (c : Char) : Char := Char.toLower c

/-- Python `str.isspace` for the ASCII whitespace characters
(space, tab, newline, carriage return, vertical tab, form feed). -/
def pyIsSpace (c : Char) : Bool :=
  c = ' ' || c = '\t' || c = '\n' || c = '\r' || c.toNat = 11 || c.toNat = 12

/-- Python `str.lower` over a whole string. -/
def pyLowerStr (s : List Char) : List Char := s.map pyLower

/-- Python `str.strip`: drop whitespace from both ends. -/
def pyStrip (s : List Char) : List Char :=
  ((s.dropWhile pyIsSpace).reverse.dropWhile pyIsSpace).reverse

/-- Python `token in text` substring containment. -/
def pySubstr (token : List Char) : List Char → Bool
  | [] => token.isEmpty
  | c :: rest => token.isPrefixOf (c :: rest) || pySubstr token rest

/-- Python `a or b` on strings: `b` when `a` is empty, else `a`. -/
def pyOrStr (a b : List Char) : List Char := if a.isEmpty then b else a

/-- Python `a or b` on optional strings: falsy (`None` or empty) falls through. -/
def pyOrOptStr (a b : Option (List Char)) : Option (List Char) :=
  match a with
  | some s => if s.isEmpty then b else some s
  | none => b

/-! ### validator.py — text normalisation and rule matching -/

/-- `validator._normalize_text`: `value.lower().strip()`. -/
def normalize_text (value : List Char) : List Char := pyStrip (pyLowerStr value)

/-- `validator._contains_any`: any non-empty normalised pattern is a
substring of the normalised text. -/
def contains_any (text : List Char) (patterns : List (List Char)) : Bool :=
  if patterns.isEmpty then false
  else
    let normalized := normalize_text text
    patterns.any fun pattern =>
      let token := normalize_text pattern
      !token.isEmpty && pySubstr token normalized

/-- A classification rule (`status_codes`, `body_contains_any`,
`url_contains_any`), the normalised shape produced by
`profiles.ProfileStore._normalize_rule`. -/
structure Rule where
  status_codes : List Int
  body_contains_any : List (List Char)
  url_contains_any : List (List Char)
deriving DecidableEq

/-- `validator._rule_matches`. -/
def rule_matches (rule : Rule) (status_code : Int) (body_text : List Char)
    (final_url : List Char) : Bool :=
  (!rule.status_codes.isEmpty && rule.status_codes.contains status_code) ||
    contains_any body_text rule.body_contains_any ||
    contains_any final_url rule.url_contains_any

/-! ### Profile model (normalised shape from profiles.py) -/

structure FormCfg where
  url : List Char
  code_selector : List Char
  submit_selector : List Char
  wait_for_selector : List Char
deriving DecidableEq

structure HttpCfg where
  enabled : Bool
  method : String
  timeout_seconds : Nat
  post_url : List Char
  code_field : List Char
  success : Rule
  failure : Rule
  blocked : Rule
deriving DecidableEq

structure BrowserCfg where
  enabled : Bool
  headless : Bool
  login_required : Bool
  timeout_ms : Nat
  wait_after_submit_ms : Nat
  result_selector : List Char
  storage_state_path : List Char
  success_text_any : List (List Char)
  failure_text_any : List (List Char)
  blocked_text_any : List (List Char)
deriving DecidableEq

structure Profile where
  name : List Char
  description : List Char
  mode : String
  url_template : List Char
  form : FormCfg
  http : HttpCfg
  browser : BrowserCfg
deriving DecidableEq

/-! ### validator.py — classifiers -/

/-- The observed signals of an `httpx.Response`: status code, body text,
final URL after redirects. -/
structure HttpResponse where
  status_code : Int
  text : List Char
  url : List Char
deriving DecidableEq

/-- `validator.classify_http_response`: blocked rule first, then success
and failure evaluated independently with the four-way tie-break. -/
def classify_http_response (response : HttpResponse) (p : Profile) :
    String × String :=
  let text := response.text.take 200000
  let final_url := response.url
  let status_code := response.status_code
  if rule_matches p.http.blocked status_code text final_url then
    ("blocked", "Matched blocked rule")
  else
    let success_match := rule_matches p.http.success status_code text final_url
    let failure_match := rule_matches p.http.failure status_code text final_url
    if success_match && !failure_match then ("valid", "Matched success rule")
    else if failure_match && !success_match then ("invalid", "Matched failure rule")
    else if success_match && failure_match then
      ("unknown", "Conflicting success and failure signals")
    else ("unknown", "No configured HTTP rule matched")

/-- `validator.classify_browser_content`: text rules (browser lists plus
HTTP body lists) with the same tie-break, then a URL-rule fallback. -/
def classify_browser_content (content : List Char) (current_url : List Char)
    (p : Profile) : String × String :=
  let blocked_patterns := p.browser.blocked_text_any ++ p.http.blocked.body_contains_any
  if contains_any content blocked_patterns then
    ("blocked", "Blocked text detected in browser content")
  else
    let success_patterns := p.browser.success_text_any ++ p.http.success.body_contains_any
    let failure_patterns := p.browser.failure_text_any ++ p.http.failure.body_contains_any
    let success_match := contains_any content success_patterns
    let failure_match := contains_any content failure_patterns
    if success_match && !failure_match then
      ("valid", "Browser content matched success text")
    else if failure_match && !success_match then
      ("invalid", "Browser content matched failure text")
    else if success_match && failure_match then
      ("unknown", "Browser found both success and failure text")
    else if contains_any current_url p.http.success.url_contains_any then
      ("valid", "Current URL matched success rule")
    else if contains_any current_url p.http.failure.url_contains_any then
      ("invalid", "Current URL matched failure rule")
    else ("unknown", "No configured browser rule matched")

/-! ### A JSON / YAML scalar-and-container value model

Raw profile fields (loaded by `yaml.safe_load`) and session-state payloads
(loaded by `json.loads`) are dynamic Python values; both are modelled by
this inductive.  Numbers are integers only (floats are out of scope). -/

inductive Json where
  | null : Json
  | bool (b : Bool) : Json
  | num (n : Int) : Json
  | str (s : List Char) : Json
  | arr (items : List Json) : Json
  | obj (fields : List (List Char × Json)) : Json

/-- Python `dict.get(key)` on a JSON object; `none` on non-objects. -/
def jsonGet (j : Json) (key : List Char) : Option Json :=
  match j with
  | .obj fields => (fields.find? fun kv => kv.1 == key).map (·.2)
  | _ => none

mutual

/-- Python `repr` of a dynamic value, used by `str` on containers.
String escape sequences inside `repr` are not modelled. -/
def Json.reprPy : Json → List Char
  | .null => "None".data
  | .bool true => "True".data
  | .bool false => "False".data
  | .num n => (toString n).data
  | .str s => Char.ofNat 39 :: (s ++ [Char.ofNat 39])
  | .arr items => '[' :: (Json.reprPyList items ++ [']'])
  | .obj fields => "\x7b".data ++ Json.reprPyObj fields ++ "\x7d".data

/-- Comma-separated `repr` of the elements of a Python list. -/
def Json.reprPyList : List Json → List Char
  | [] => []
  | [x] => Json.reprPy x
  | x :: y :: rest => Json.reprPy x ++ ", ".data ++ Json.reprPyList (y :: rest)

/-- Comma-separated `repr` of the entries of a Python dict. -/
def Json.reprPyObj : List (List Char × Json) → List Char
  | [] => []
  | [(k, v)] =>
    (Char.ofNat 39 :: (k ++ [Char.ofNat 39])) ++ ": ".data ++ Json.reprPy v
  | (k, v) :: kv :: rest =>
    (Char.ofNat 39 :: (k ++ [Char.ofNat 39])) ++ ": ".data ++ Json.reprPy v ++
      ", ".data ++ Json.reprPyObj (kv :: rest)

end

/-- Python `str()` of a dynamic value: strings unchanged, everything else
rendered by `repr`-style printing. -/
def Json.strPy : Json → List Char
  | .str s => s
  | j => j.reprPy

/-- Digits of a decimal literal folded to a `Nat`. -/
def digitsToNat (s : List Char) : Nat :=
  s.foldl (fun acc c => acc * 10 + (c.toNat - 48)) 0

/-- Python `int(str)`: optional sign and decimal digits after stripping
whitespace; anything else raises, modelled as `none`. -/
def parseIntChars (s : List Char) : Option Int :=
  let t := pyStrip s
  match t with
  | [] => none
  | c :: rest =>
    if c = '-' then
      if !rest.isEmpty && rest.all Char.isDigit then some (-(digitsToNat rest : Int)) else none
    else if c = '+' then
      if !rest.isEmpty && rest.all Char.isDigit then some (digitsToNat rest : Int) else none
    else if t.all Char.isDigit then some (digitsToNat t : Int)
    else none

/-- Python `int(value)` over dynamic values: ints pass through, bools are
0/1, numeric strings parse, everything else raises (`none`). -/
def pyIntOpt : Json → Option Int
  | .num n => some n
  | .bool b => some (if b then 1 else 0)
  | .str s => parseIntChars s
  | _ => none

/-! ### profiles.py — normalisation helpers and blocked-keyword union -/

/-- `profiles.DEFAULT_BLOCKED_KEYWORDS`. -/
def DEFAULT_BLOCKED_KEYWORDS : List (List Char) :=
  ["captcha".data, "verify you are human".data, "are you human".data,
   "attention required".data, "cloudflare".data, "security check".data,
   "access denied".data]

/-- `ProfileStore._string_list`: lists keep their non-blank stripped string
renderings; a non-blank string becomes a singleton; anything else is empty. -/
def string_list (value : Json) : List (List Char) :=
  match value with
  | .arr items =>
    (items.map fun item => pyStrip (Json.strPy item)).filter fun s => !s.isEmpty
  | .str s => if (pyStrip s).isEmpty then [] else [pyStrip s]
  | _ => []

/-- `ProfileStore._normalize_rule`. -/
def normalize_rule (value : Json) : Rule :=
  let v := match value with | .obj fields => Json.obj fields | _ => Json.obj []
  let code_values : List Int :=
    match jsonGet v "status_codes".data with
    | some (.arr items) => items.filterMap pyIntOpt
    | _ => []
  { status_codes := code_values
    body_contains_any := string_list ((jsonGet v "body_contains_any".data).getD .null)
    url_contains_any := string_list ((jsonGet v "url_contains_any".data).getD .null) }

/-- Loop body of `ProfileStore._dedupe_strings`, with the `seen` set of
normalised forms made explicit. -/
def dedupe_go : List (List Char) → List (List Char) → List (List Char)
  | [], _ => []
  | item :: rest, seen =>
    let normalized := pyStrip (pyLowerStr item)
    if normalized.isEmpty || seen.contains normalized then dedupe_go rest seen
    else item :: dedupe_go rest (normalized :: seen)

/-- `ProfileStore._dedupe_strings`. -/
def dedupe_strings (items : List (List Char)) : List (List Char) :=
  dedupe_go items []

/-- The HTTP blocked rule built by `ProfileStore._normalize_profile`: the
raw rule's body list unioned with the built-in keywords, deduplicated. -/
def normalize_blocked_http (raw_http_blocked : Json) : Rule :=
  let blocked_http := normalize_rule raw_http_blocked
  { blocked_http with
      body_contains_any :=
        dedupe_strings (blocked_http.body_contains_any ++ DEFAULT_BLOCKED_KEYWORDS) }

/-- The browser blocked-text list built by `ProfileStore._normalize_profile`:
the raw `blocked_text_any` strings unioned with the built-in keywords. -/
def normalize_blocked_browser (raw_blocked_text_any : Json) : List (List Char) :=
  dedupe_strings (string_list raw_blocked_text_any ++ DEFAULT_BLOCKED_KEYWORDS)

/-! ### validator.py — cookie jar loading (`load_http_cookies_from_storage_state`) -/

/-- One cookie of an `httpx.Cookies` jar. -/
structure CookieEntry where
  name : List Char
  value : List Char
  domain : Option (List Char)
  path : List Char
deriving DecidableEq

/-- `httpx.Cookies.set`: overwrite any cookie with the same
(name, domain, path) key, else append. -/
def cookie_set (jar : List CookieEntry) (c : CookieEntry) : List CookieEntry :=
  (jar.filter fun e => !(e.name == c.name && e.domain == c.domain && e.path == c.path)) ++ [c]

/-- One iteration of the cookie loop: skip non-dict entries and entries
whose stripped name is empty; blank domains drop the domain keyword; blank
paths default to "/". -/
def parse_cookie_entry (entry : Json) : Option CookieEntry :=
  match entry with
  | .obj _ =>
    let name := pyStrip (Json.strPy ((jsonGet entry "name".data).getD (.str [])))
    let value := pyStrip (Json.strPy ((jsonGet entry "value".data).getD (.str [])))
    let domain0 := pyStrip (Json.strPy ((jsonGet entry "domain".data).getD (.str [])))
    let domain := if domain0.isEmpty then none else some domain0
    let path0 := pyStrip (Json.strPy ((jsonGet entry "path".data).getD (.str "/".data)))
    let path := if path0.isEmpty then "/".data else path0
    if name.isEmpty then none else some ⟨name, value, domain, path⟩
  | _ => none

/-- The `for entry in cookie_entries` loop. -/
def load_cookie_entries (entries : List Json) (jar : List CookieEntry) : List CookieEntry :=
  match entries with
  | [] => jar
  | e :: rest =>
    match parse_cookie_entry e with
    | none => load_cookie_entries rest jar
    | some c => load_cookie_entries rest (cookie_set jar c)

/-- `validator.load_http_cookies_from_storage_state`.  The file system and
JSON parser are abstracted: `none` is a missing file, `some none` a file
whose read or parse raised, `some (some payload)` a parsed document. -/
def load_http_cookies_from_storage_state (file : Option (Option Json)) : List CookieEntry :=
  match file with
  | none => []
  | some none => []
  | some (some payload) =>
    let cookie_entries := match payload with | .obj _ => jsonGet payload "cookies".data | _ => none
    match cookie_entries with
    | some (.arr entries) => load_cookie_entries entries []
    | _ => []

/-! ### validator.py — request construction -/

/-- Upper-case hex digit, as used by `urllib.parse.quote`. -/
def hexDigitChar (n : Nat) : Char :=
  if n < 10 then Char.ofNat (n + 48) else Char.ofNat (n + 55)

/-- Percent-encoding of one ASCII character under `quote(code, safe="")`:
letters, digits and `_.-~` pass through, everything else becomes `%XX`. -/
def pyQuoteChar (c : Char) : List Char :=
  if c.isAlphanum || c = '_' || c = '.' || c = '-' || c = '~' then [c]
  else ['%', hexDigitChar (c.toNat / 16 % 16), hexDigitChar (c.toNat % 16)]

/-- `urllib.parse.quote(s, safe="")` on ASCII text. -/
def pyQuote (s : List Char) : List Char :=
  (s.map pyQuoteChar).flatten

/-- Python `template.replace("\x7bcode\x7d", replacement)`: left-to-right,
non-overlapping; on a match the whole six-character token is consumed. -/
def replaceCodeToken (replacement : List Char) : List Char → List Char
  | [] => []
  | c :: rest =>
    if "\x7bcode\x7d".data.isPrefixOf (c :: rest) then
      replacement ++ replaceCodeToken replacement (rest.drop 5)
    else c :: replaceCodeToken replacement rest
termination_by l => l.length
decreasing_by
  · simp only [List.length_drop, List.length_cons]; omega
  · simp

/-- `validator.render_code_url`. -/
def render_code_url (template : List Char) (code : List Char) : List Char :=
  let escaped := pyQuote code
  if pySubstr "\x7bcode\x7d".data template then replaceCodeToken escaped template
  else
    let separator := if pySubstr "?".data template then "&".data else "?".data
    template ++ separator ++ "code=".data ++ escaped

/-- The request dictionary built by `validator.build_http_request`:
method, URL, optional single query parameter, optional single form field. -/
structure RequestData where
  method : String
  url : List Char
  params : Option (List Char × List Char)
  data : Option (List Char × List Char)
deriving DecidableEq

/-- `validator.build_http_request`: `none` models returning `None`
(stage skipped). -/
def build_http_request (p : Profile) (code : List Char)
    (redeem_url_override : Option (List Char)) : Option RequestData :=
  if !p.http.enabled then none
  else
    let method := p.http.method.map Char.toUpper
    if p.mode = "url_template" then
      let template := pyStrip (pyOrStr (redeem_url_override.getD []) p.url_template)
      if template.isEmpty then none
      else some ⟨method, render_code_url template code, none, none⟩
    else
      let post_url := pyStrip (pyOrStr p.http.post_url p.form.url)
      if post_url.isEmpty then none
      else
        let code_field := pyOrStr p.http.code_field "code".data
        if method = "GET" then some ⟨method, post_url, some (code_field, code), none⟩
        else some ⟨method, post_url, none, some (code_field, code)⟩

/-! ### validator.py — HTTP retry loop -/

/-- `validator.ValidationOutcome`. -/
structure ValidationOutcome where
  status : String
  source : String
  reason : String
  attempts : Nat
  http_status : Option Int
  redirect_url : Option (List Char)
deriving DecidableEq

/-- `validator.RETRYABLE_HTTP_STATUSES`. -/
def RETRYABLE_HTTP_STATUSES : List Int := [408, 425, 429, 500, 502, 503, 504]

/-- Python `"captcha" in outcome.reason.lower()`. -/
def reason_mentions_captcha (reason : String) : Bool :=
  pySubstr "captcha".data (reason.data.map pyLower)

/-- `validator._is_retryable_http_result`. -/
def is_retryable_http_result (o : ValidationOutcome) : Bool :=
  if o.status = "error" then true
  else if (match o.http_status with
           | some s => RETRYABLE_HTTP_STATUSES.contains s
           | none => false) then true
  else if o.status = "blocked" &&
      (match o.http_status with
       | some s => ([403, 429, 503] : List Int).contains s
       | none => false) then
    if reason_mentions_captcha o.reason then false else true
  else false

/-- One network interaction of the HTTP stage: either an `httpx` response
or a raised transport exception (by class name). -/
inductive NetResult where
  | response (r : HttpResponse)
  | failure (excName : String)
deriving DecidableEq

/-- The outcome recorded by `run_http_validation` for attempt number
`attempt` (the try/except body of the loop). -/
def http_attempt_outcome (p : Profile) (net : Nat → NetResult) (attempt : Nat) :
    ValidationOutcome :=
  match net attempt with
  | .response r =>
    let sr := classify_http_response r p
    ⟨sr.1, "http", sr.2, attempt, some r.status_code, some r.url⟩
  | .failure excName =>
    ⟨"error", "http", "HTTP exception: " ++ excName, attempt, none, none⟩

/-- The `for attempt in range(1, total_attempts + 1)` retry loop of
`validator.run_http_validation`, indexed by the current attempt number and
the number of attempts still allowed after it (`total_attempts - attempt`).
With attempts remaining, a retryable outcome continues the loop; otherwise
the current outcome is returned.  Backoff sleeps do not affect the value
and are not modelled. -/
def run_http_loop (p : Profile) (net : Nat → NetResult) :
    Nat → Nat → ValidationOutcome
  | 0, attempt => http_attempt_outcome p net attempt
  | remaining + 1, attempt =>
    let last_outcome := http_attempt_outcome p net attempt
    if is_retryable_http_result last_outcome then
      run_http_loop p net remaining (attempt + 1)
    else last_outcome

/-- `validator.run_http_validation`; the network is abstracted as the map
`net` from attempt numbers to interaction results, and `request_delay_ms`
only drives a jitter sleep, not the value. -/
def run_http_validation (p : Profile) (code : List Char)
    (redeem_url_override : Option (List Char)) (max_retries : Nat)
    (request_delay_ms : Nat) (net : Nat → NetResult) : ValidationOutcome :=
  match build_http_request p code redeem_url_override with
  | none => ⟨"unknown", "http", "HTTP stage skipped by profile configuration", 0, none, none⟩
  | some _ => run_http_loop p net (max 1 (max_retries + 1) - 1) 1

/-- `validator.needs_browser_fallback`. -/
def needs_browser_fallback (o : ValidationOutcome) (p : Profile) : Bool :=
  if !p.browser.enabled then false
  else (["unknown", "blocked", "error"] : List String).contains o.status

/-! ### validator.py — browser stage and worker composition -/

/-- The browser session's behaviour for one code, abstracted: either the
page settles and yields the combined text (result-region extract plus full
content) with the current URL, or some step of the sequence raised. -/
inductive BrowserEnv where
  | success (combined_content : List Char) (current_url : List Char)
  | failure (excName : String)
deriving DecidableEq

/-- `validator.run_browser_validation`, with navigation, fill, click and
extraction abstracted into `env`.  Every return path carries `attempts = 1`
and the early configuration checks fire before any navigation. -/
def run_browser_validation (p : Profile) (code : List Char)
    (redeem_url_override : Option (List Char)) (env : BrowserEnv) :
    ValidationOutcome :=
  let finish : BrowserEnv → ValidationOutcome := fun e =>
    match e with
    | .success combined current_url =>
      let sr := classify_browser_content combined current_url p
      ⟨sr.1, "browser", sr.2, 1, none, some current_url⟩
    | .failure excName =>
      ⟨"error", "browser", "Browser exception: " ++ excName, 1, none, none⟩
  if p.mode = "url_template" then
    let template := pyStrip (pyOrStr (redeem_url_override.getD []) p.url_template)
    if template.isEmpty then
      ⟨"unknown", "browser", "Browser stage missing URL template", 1, none, none⟩
    else finish env
  else
    let target_url := pyStrip p.form.url
    let code_selector := pyStrip p.form.code_selector
    let submit_selector := pyStrip p.form.submit_selector
    if target_url.isEmpty || code_selector.isEmpty || submit_selector.isEmpty then
      ⟨"unknown", "browser", "Browser stage missing form settings", 1, none, none⟩
    else finish env

/-- The final-outcome composition of `JobManager._browser_worker` when the
one-time browser session setup succeeded (worker.py lines 251-258). -/
def compose_browser_final (prior browser_outcome : ValidationOutcome) :
    ValidationOutcome :=
  { status := browser_outcome.status
    source := browser_outcome.source
    reason := browser_outcome.reason
    attempts := max 0 prior.attempts + max 1 browser_outcome.attempts
    http_status := prior.http_status
    redirect_url := pyOrOptStr browser_outcome.redirect_url prior.redirect_url }

/-- The final outcome persisted by `JobManager._browser_worker` for one
dequeued code: composed with the browser result when the session is ready,
else the HTTP outcome passed through with the setup failure appended. -/
def browser_worker_final (browser_ready : Bool) (startup_error : String)
    (prior browser_outcome : ValidationOutcome) : ValidationOutcome :=
  if browser_ready then compose_browser_final prior browser_outcome
  else { prior with reason := prior.reason ++ "; " ++ startup_error }

/-! ### repository.py — the durable store -/

structure JobRow where
  id : String
  profile_name : String
  redeem_url_override : Option String
  created_by : String
  status : String
  total_codes : Nat
  created_at : String
  started_at : Option String
  completed_at : Option String
  http_concurrency : Int
  browser_concurrency : Int
  max_retries : Int
  request_delay_ms : Int
  notes : Option String
deriving DecidableEq

structure ResultRow where
  id : Nat
  job_id : String
  code : String
  status : String
  source : String
  reason : Option String
  attempts : Nat
  http_status : Option Int
  redirect_url : Option String
  checked_at : Option String
  created_at : String
  updated_at : String
deriving DecidableEq

/-- The SQLite database: the `jobs` and `results` tables. -/
structure Store where
  jobs : List JobRow
  results : List ResultRow
deriving DecidableEq

/-- `repository.FINAL_RESULT_STATUSES`. -/
def FINAL_RESULT_STATUSES : List String :=
  ["valid", "invalid", "unknown", "blocked", "error"]

/-- `SELECT ... FROM jobs WHERE id = ?` (`repository.get_job`). -/
def get_job (s : Store) (job_id : String) : Option JobRow :=
  s.jobs.find? fun j => j.id == job_id

/-- Whether a result row is hit by the `WHERE` clause of
`repository.rerun_uncertain_results`. -/
def rerun_hits (job_id : String) (r : ResultRow) : Bool :=
  r.job_id == job_id && (["unknown", "blocked", "error"] : List String).contains r.status

/-- `repository.rerun_uncertain_results`: reset uncertain rows of the job
to pending, return the new store and the update's rowcount. -/
def rerun_uncertain_results (now : String) (job_id : String) (s : Store) :
    Store × Nat :=
  let results := s.results.map fun r =>
    if rerun_hits job_id r then
      { r with status := "pending", source := "none", reason := none, attempts := 0,
               http_status := none, redirect_url := none, checked_at := none,
               updated_at := now }
    else r
  let changed := (s.results.filter (rerun_hits job_id)).length
  let jobs := s.jobs.map fun j =>
    if j.id == job_id then
      { j with status := "queued", started_at := none, completed_at := none, notes := none }
    else j
  (⟨jobs, results⟩, changed)

/-- `repository.mark_job_completed`. -/
def mark_job_completed (now : String) (job_id : String) (s : Store) : Store :=
  { s with
      jobs := s.jobs.map fun j =>
        if j.id == job_id then { j with status := "completed", completed_at := some now }
        else j }

/-- The `POST /jobs/.../rerun-uncertain` handler (`routes/api.py`):
404 when the job is missing, 409 when it is running; otherwise reset the
uncertain rows and either complete the job (nothing to rerun) or relaunch
it.  The returned flag records whether `start_job` was called. -/
def api_rerun_uncertain (now : String) (job_id : String) (s : Store) :
    Except Nat (Store × Bool) :=
  match get_job s job_id with
  | none => .error 404
  | some job =>
    if job.status = "running" then .error 409
    else
      let sc := rerun_uncertain_results now job_id s
      if sc.2 = 0 then .ok (mark_job_completed now job_id sc.1, false)
      else .ok (sc.1, true)

/-- `repository.reset_stuck_jobs`: startup recovery of interrupted work. -/
def reset_stuck_jobs (now : String) (s : Store) : Store :=
  let results := s.results.map fun r =>
    if (["running", "queued_browser"] : List String).contains r.status then
      { r with status := "pending", source := "none", reason := none, updated_at := now }
    else r
  let jobs := s.jobs.map fun j =>
    if j.status == "running" then
      { j with status := "queued", started_at := none, completed_at := none,
               notes := some "Recovered after restart" }
    else j
  ⟨jobs, results⟩

/-- The startup sequence of `main.lifespan`: recovery runs first, then
every job still queued in the recovered store is (re)launched
(`JobManager.start_queued_jobs`).  Returns the recovered store and the ids
of the launched jobs. -/
def lifespan_startup (now : String) (s : Store) : Store × List String :=
  let s2 := reset_stuck_jobs now s
  (s2, (s2.jobs.filter fun j => j.status == "queued").map (·.id))

/-- The column values of the job row inserted by
`repository.create_job_with_codes`. -/
structure JobParams where
  job_id : String
  profile_name : String
  redeem_url_override : Option String
  created_by : String
  http_concurrency : Int
  browser_concurrency : Int
  max_retries : Int
  request_delay_ms : Int
deriving DecidableEq

/-- `repository.create_job_with_codes`.  The transaction either commits
both inserts or rolls back and re-raises: the flag is false exactly on the
raising paths, where the store is returned unchanged.  A raise happens on
an injected store fault (`fail_inject`), a duplicate job id (jobs primary
key), or a `UNIQUE(job_id, code)` violation among the result rows.
Autoincrement result ids are modelled as fresh successive numbers. -/
def create_job_with_codes (fail_inject : Bool) (now : String) (prm : JobParams)
    (codes : List String) (s : Store) : Store × Bool :=
  if fail_inject = true ∨ (s.jobs.any fun j => j.id == prm.job_id) = true ∨
      ¬ codes.Nodup ∨
      (∃ c ∈ codes, ∃ r ∈ s.results, r.job_id = prm.job_id ∧ r.code = c) then
    (s, false)
  else
    let job : JobRow :=
      { id := prm.job_id, profile_name := prm.profile_name,
        redeem_url_override := prm.redeem_url_override,
        created_by := prm.created_by, status := "queued",
        total_codes := codes.length, created_at := now, started_at := none,
        completed_at := none, http_concurrency := prm.http_concurrency,
        browser_concurrency := prm.browser_concurrency,
        max_retries := prm.max_retries, request_delay_ms := prm.request_delay_ms,
        notes := none }
    let base := s.results.length
    let rows := codes.enum.map fun ic =>
      ({ id := base + ic.1 + 1, job_id := prm.job_id, code := ic.2,
         status := "pending", source := "none", reason := none, attempts := 0,
         http_status := none, redirect_url := none, checked_at := none,
         created_at := now, updated_at := now } : ResultRow)
    ({ jobs := s.jobs ++ [job], results := s.results ++ rows }, true)

/-- Python `isinstance(value, dict)`. -/
def Json.isObj : Json → Bool
  | .obj _ => true
  | _ => false

/-- Python `isinstance(value, list)`. -/
def Json.isArr : Json → Bool
  | .arr _ => true
  | _ => false

/-! ### Concrete fixtures for witnesses and counterexamples -/

def emptyRule : Rule := ⟨[], [], []⟩

def fxBrowserCfg : BrowserCfg :=
  { enabled := true, headless := true, login_required := false,
    timeout_ms := 45000, wait_after_submit_ms := 2000, result_selector := [],
    storage_state_path := "sessions/acme.json".data, success_text_any := [],
    failure_text_any := [], blocked_text_any := DEFAULT_BLOCKED_KEYWORDS }

def fxHttpCfg : HttpCfg :=
  { enabled := true, method := "GET", timeout_seconds := 20, post_url := [],
    code_field := "code".data, success := emptyRule, failure := emptyRule,
    blocked := { status_codes := [],
                 body_contains_any := DEFAULT_BLOCKED_KEYWORDS,
                 url_contains_any := [] } }

/-- A normalised `url_template`-mode profile with the built-in blocked
keywords and no success/failure rules. -/
def fxProfile : Profile :=
  { name := "acme".data, description := [], mode := "url_template",
    url_template := "https://acme.test/redeem?code=\x7bcode\x7d".data,
    form := ⟨[], [], [], []⟩, http := fxHttpCfg, browser := fxBrowserCfg }

/-- `fxProfile` with success and failure rules that both match status 200. -/
def fxConflictProfile : Profile :=
  { fxProfile with
      http := { fxHttpCfg with
                  success := { emptyRule with status_codes := [200] },
                  failure := { emptyRule with status_codes := [200] } } }

/-- `fxProfile` with success and failure URL rules that both match "ok". -/
def fxUrlConflictProfile : Profile :=
  { fxProfile with
      http := { fxHttpCfg with
                  success := { emptyRule with url_contains_any := ["ok".data] },
                  failure := { emptyRule with url_contains_any := ["ok".data] } } }

/-- A CAPTCHA-flavoured blocked outcome whose HTTP status 429 is in the
generic retryable set. -/
def fxCaptchaBlocked429 : ValidationOutcome :=
  ⟨"blocked", "http", "CAPTCHA challenge detected", 1, some 429, none⟩

/-- A CAPTCHA-flavoured blocked outcome with HTTP status 403. -/
def fxCaptchaBlocked403 : ValidationOutcome :=
  ⟨"blocked", "http", "CAPTCHA challenge detected", 1, some 403, none⟩

def fxJob : JobRow :=
  { id := "j1", profile_name := "acme", redeem_url_override := none,
    created_by := "admin", status := "completed", total_codes := 2,
    created_at := "t0", started_at := some "t0", completed_at := some "t1",
    http_concurrency := 2, browser_concurrency := 0, max_retries := 1,
    request_delay_ms := 0, notes := none }

def fxResUnknown : ResultRow :=
  { id := 1, job_id := "j1", code := "A1", status := "unknown",
    source := "http", reason := some "No configured HTTP rule matched",
    attempts := 2, http_status := some 200, redirect_url := some "u1",
    checked_at := some "t1", created_at := "t0", updated_at := "t1" }

def fxResValid : ResultRow :=
  { id := 2, job_id := "j1", code := "B2", status := "valid",
    source := "http", reason := some "Matched success rule", attempts := 1,
    http_status := some 200, redirect_url := none, checked_at := some "t1",
    created_at := "t0", updated_at := "t1" }

def fxStore : Store := ⟨[fxJob], [fxResUnknown, fxResValid]⟩

def fxRunningJob : JobRow := { fxJob with id := "j2", status := "running" }

def fxResQueuedBrowser : ResultRow :=
  { fxResUnknown with id := 3, job_id := "j2", status := "queued_browser" }

def fxRecoverStore : Store := ⟨[fxJob, fxRunningJob], [fxResValid, fxResQueuedBrowser]⟩

def fxJobParams : JobParams :=
  { job_id := "j9", profile_name := "acme", redeem_url_override := none,
    created_by := "admin", http_concurrency := 2, browser_concurrency := 1,
    max_retries := 1, request_delay_ms := 0 }

/-- A network behaviour that answers every attempt with an empty 500
response (retryable, no rule matches). -/
def fxNet500 : Nat → NetResult := fun _ => .response ⟨500, [], []⟩

/-- A session-state payload: one full cookie with a blank path, one
non-dict entry, and one entry whose name strips to empty. -/
def fxCookiePayload : Json :=
  .obj [("cookies".data,
    .arr [.obj [("name".data, .str "sid".data), ("value".data, .str "abc".data),
                ("domain".data, .str "acme.test".data), ("path".data, .str "  ".data)],
          .num 5,
          .obj [("name".data, .str "   ".data)]])]

/-! ## Support lemmas -/

theorem char_toNat_ofNat_valid (m : Nat) (h : m.isValidChar) :
    (Char.ofNat m).toNat = m := by
  rw [Char.ofNat, dif_pos h]
  rfl

theorem pyLower_pyLower (c : Char) : pyLower (pyLower c) = pyLower c := by
  unfold pyLower Char.toLower
  by_cases h : c.toNat ≥ 65 ∧ c.toNat ≤ 90
  · rw [if_pos h]
    have hv : (c.toNat + 32).isValidChar := Or.inl (by omega)
    have ht : (Char.ofNat (c.toNat + 32)).toNat = c.toNat + 32 :=
      char_toNat_ofNat_valid _ hv
    rw [if_neg]
    rw [ht]
    omega
  · rw [if_neg h, if_neg h]

theorem pyLowerStr_pyLowerStr (s : List Char) :
    pyLowerStr (pyLowerStr s) = pyLowerStr s := by
  simp [pyLowerStr, List.map_map, Function.comp_def, pyLower_pyLower]

theorem normalize_text_pyLowerStr (s : List Char) :
    normalize_text (pyLowerStr s) = normalize_text s := by
  simp [normalize_text, pyLowerStr_pyLowerStr]

theorem pyLower_of_space (c : Char) (h : pyIsSpace c = true) : pyLower c = c := by
  have hlt : c.toNat < 65 := by
    simp only [pyIsSpace, Bool.or_eq_true, decide_eq_true_eq] at h
    rcases h with ((((h | h) | h) | h) | h) | h
    · subst h; decide
    · subst h; decide
    · subst h; decide
    · subst h; decide
    · omega
    · omega
  unfold pyLower Char.toLower
  rw [if_neg]
  omega

theorem normalize_text_of_space (p : List Char) (h : ∀ c ∈ p, pyIsSpace c = true) :
    normalize_text p = [] := by
  have hmap : pyLowerStr p = p := by
    unfold pyLowerStr
    induction p with
    | nil => rfl
    | cons c cs ih =>
      simp only [List.map_cons]
      rw [pyLower_of_space c (h c (by simp)), ih fun x hx => h x (by simp [hx])]
  rw [normalize_text, hmap]
  unfold pyStrip
  have hdrop : p.dropWhile pyIsSpace = [] := by
    rw [List.dropWhile_eq_nil_iff]
    exact h
  rw [hdrop]
  rfl

theorem http_attempt_outcome_attempts (p : Profile) (net : Nat → NetResult)
    (k : Nat) : (http_attempt_outcome p net k).attempts = k := by
  cases h : net k <;> simp [http_attempt_outcome, h]

theorem run_http_loop_spec (p : Profile) (net : Nat → NetResult) :
    ∀ remaining attempt : Nat, ∃ k, attempt ≤ k ∧ k ≤ attempt + remaining ∧
      run_http_loop p net remaining attempt = http_attempt_outcome p net k := by
  intro remaining
  induction remaining with
  | zero => exact fun attempt => ⟨attempt, le_rfl, by omega, rfl⟩
  | succ r ih =>
    intro attempt
    by_cases hr : is_retryable_http_result (http_attempt_outcome p net attempt) = true
    · obtain ⟨k, h1, h2, h3⟩ := ih (attempt + 1)
      exact ⟨k, by omega, by omega, by simp [run_http_loop, hr, h3]⟩
    · exact ⟨attempt, le_rfl, by omega, by simp [run_http_loop, hr]⟩

theorem forall2_map_self {α : Type} (l : List α) (f : α → α) (P : α → α → Prop)
    (h : ∀ a ∈ l, P a (f a)) : List.Forall₂ P l (l.map f) := by
  induction l with
  | nil => exact List.Forall₂.nil
  | cons x xs ih =>
    exact List.Forall₂.cons (h x (by simp)) (ih fun a ha => h a (by simp [ha]))

theorem dedupe_go_mem (n : List Char) (hne : n.isEmpty = false) :
    ∀ (items seen : List (List Char)), n ∉ seen →
      (∃ x ∈ items, pyStrip (pyLowerStr x) = n) →
      ∃ e ∈ dedupe_go items seen, pyStrip (pyLowerStr e) = n := by
  intro items
  induction items with
  | nil =>
    intro seen _ hmem
    rcases hmem with ⟨x, hx, _⟩
    exact absurd hx (by simp)
  | cons i rest ih =>
    intro seen hns hmem
    rcases hmem with ⟨x, hx, hxn⟩
    by_cases hskip : ((pyStrip (pyLowerStr i)).isEmpty ||
        (seen.contains (pyStrip (pyLowerStr i)))) = true
    · have hxr : x ∈ rest := by
        rcases List.mem_cons.mp hx with rfl | h
        · exfalso
          rw [hxn] at hskip
          rcases Bool.or_eq_true _ _ |>.mp hskip with h1 | h1
          · rw [hne] at h1
            exact Bool.false_ne_true h1
          · exact hns (by simpa using h1)
        · exact h
      simp only [dedupe_go]
      rw [if_pos hskip]
      exact ih seen hns ⟨x, hxr, hxn⟩
    · simp only [dedupe_go]
      rw [if_neg hskip]
      by_cases heq : pyStrip (pyLowerStr i) = n
      · exact ⟨i, by simp, heq⟩
      · have hxr : x ∈ rest := by
          rcases List.mem_cons.mp hx with rfl | h
          · exact absurd hxn heq
          · exact h
        have hns2 : n ∉ pyStrip (pyLowerStr i) :: seen := by
          intro hcon
          rcases List.mem_cons.mp hcon with h1 | h1
          · exact heq h1.symm
          · exact hns h1
        obtain ⟨e, he, hen⟩ := ih (pyStrip (pyLowerStr i) :: seen) hns2 ⟨x, hxr, hxn⟩
        exact ⟨e, by simp [he], hen⟩

theorem dedupe_go_pairwise :
    ∀ items seen : List (List Char),
      (dedupe_go items seen).Pairwise
        (fun a b => pyStrip (pyLowerStr a) ≠ pyStrip (pyLowerStr b)) ∧
      ∀ e ∈ dedupe_go items seen, pyStrip (pyLowerStr e) ∉ seen := by
  intro items
  induction items with
  | nil =>
    intro seen
    exact ⟨List.Pairwise.nil, by simp [dedupe_go]⟩
  | cons i rest ih =>
    intro seen
    by_cases hskip : ((pyStrip (pyLowerStr i)).isEmpty ||
        (seen.contains (pyStrip (pyLowerStr i)))) = true
    · simp only [dedupe_go]
      rw [if_pos hskip]
      exact ih seen
    · simp only [dedupe_go]
      rw [if_neg hskip]
      obtain ⟨hpw, hseen⟩ := ih (pyStrip (pyLowerStr i) :: seen)
      have hskip2 : seen.contains (pyStrip (pyLowerStr i)) = false := by
        rcases Bool.or_eq_false_iff.mp (Bool.not_eq_true _ |>.mp hskip) with ⟨_, h2⟩
        exact h2
      refine ⟨List.Pairwise.cons ?_ hpw, ?_⟩
      · intro b hb hcontra
        exact (hseen b hb) (by simp [← hcontra])
      · intro e he
        rcases List.mem_cons.mp he with rfl | he2
        · simpa using hskip2
        · intro hcon
          exact (hseen e he2) (by simp [hcon])

/-! ## Claim theorems -/

/-- C1: for every rule set and observed signal tuple, `classify_http_response`
checks the blocked rule first and returns "blocked" when it matches;
otherwise the success and failure rules are evaluated independently and the
tie-break law holds for all four combinations of (success-match,
failure-match): (T,F) gives "valid", (F,T) gives "invalid", (T,T) gives
"unknown", (F,F) gives "unknown". -/
theorem classify_http_tiebreak_law (p : Profile) (r : HttpResponse) :
    (rule_matches p.http.blocked r.status_code (r.text.take 200000) r.url = true →
      classify_http_response r p = ("blocked", "Matched blocked rule")) ∧
    (rule_matches p.http.blocked r.status_code (r.text.take 200000) r.url = false →
      (rule_matches p.http.success r.status_code (r.text.take 200000) r.url = true →
        rule_matches p.http.failure r.status_code (r.text.take 200000) r.url = false →
        classify_http_response r p = ("valid", "Matched success rule")) ∧
      (rule_matches p.http.failure r.status_code (r.text.take 200000) r.url = true →
        rule_matches p.http.success r.status_code (r.text.take 200000) r.url = false →
        classify_http_response r p = ("invalid", "Matched failure rule")) ∧
      (rule_matches p.http.success r.status_code (r.text.take 200000) r.url = true →
        rule_matches p.http.failure r.status_code (r.text.take 200000) r.url = true →
        classify_http_response r p = ("unknown", "Conflicting success and failure signals")) ∧
      (rule_matches p.http.success r.status_code (r.text.take 200000) r.url = false →
        rule_matches p.http.failure r.status_code (r.text.take 200000) r.url = false →
        classify_http_response r p = ("unknown", "No configured HTTP rule matched"))) := by
  refine ⟨fun hb => ?_, fun hb => ⟨fun hs hf => ?_, fun hf hs => ?_,
    fun hs hf => ?_, fun hs hf => ?_⟩⟩ <;>
    simp [classify_http_response, hb, *]

/-- Witness for C1 at a concrete profile whose success and failure rules
both match status 200 while the blocked rule does not: the conflicting
signals resolve to "unknown". -/
theorem classify_http_tiebreak_law_witness :
    rule_matches fxConflictProfile.http.blocked 200 (([] : List Char).take 200000) [] = false ∧
    rule_matches fxConflictProfile.http.success 200 (([] : List Char).take 200000) [] = true ∧
    rule_matches fxConflictProfile.http.failure 200 (([] : List Char).take 200000) [] = true ∧
    classify_http_response ⟨200, [], []⟩ fxConflictProfile =
      ("unknown", "Conflicting success and failure signals") :=
  ⟨by decide, by decide, by decide,
    ((classify_http_tiebreak_law fxConflictProfile ⟨200, [], []⟩).2
      (by decide)).2.2.1 (by decide) (by decide)⟩

/-- C9: text rule matching is case-insensitive substring containment —
lower-casing the text or the patterns does not change `contains_any`; a
pattern that is empty or only whitespace never matches any text; and a rule
with empty status-code, body and URL lists matches no signal tuple. -/
theorem rule_matching_algebra :
    (∀ (text : List Char) (patterns : List (List Char)),
      contains_any (pyLowerStr text) patterns = contains_any text patterns) ∧
    (∀ (text : List Char) (patterns : List (List Char)),
      contains_any text (patterns.map pyLowerStr) = contains_any text patterns) ∧
    (∀ (text pattern : List Char), (∀ c ∈ pattern, pyIsSpace c = true) →
      contains_any text [pattern] = false) ∧
    (∀ (status_code : Int) (body_text final_url : List Char),
      rule_matches ⟨[], [], []⟩ status_code body_text final_url = false) := by
  refine ⟨fun text patterns => ?_, fun text patterns => ?_,
    fun text pattern h => ?_, fun status_code body_text final_url => ?_⟩
  · simp [contains_any, normalize_text_pyLowerStr]
  · cases patterns with
    | nil => rfl
    | cons q qs =>
      simp [contains_any, Function.comp_def, normalize_text_pyLowerStr]
  · have hz := normalize_text_of_space pattern h
    simp [contains_any, hz]
  · simp [rule_matches, contains_any]

/-- Witness for C9: a whitespace-only pattern does not match, at a concrete
text and pattern. -/
theorem rule_matching_algebra_witness :
    (∀ c ∈ ("  ".data), pyIsSpace c = true) ∧
    contains_any "captcha ahead".data ["  ".data] = false :=
  ⟨by decide, rule_matching_algebra.2.2.1 "captcha ahead".data "  ".data (by decide)⟩

/-- C2 counterexample: a profile whose success URL rule and failure URL
rule both match the current URL, with no text rule matching, classifies as
"valid" — the URL fallback is not ambiguous-on-conflict. -/
theorem classify_browser_url_conflict_counterexample :
    contains_any "ok".data fxUrlConflictProfile.http.success.url_contains_any = true ∧
    contains_any "ok".data fxUrlConflictProfile.http.failure.url_contains_any = true ∧
    contains_any [] (fxUrlConflictProfile.browser.blocked_text_any ++
      fxUrlConflictProfile.http.blocked.body_contains_any) = false ∧
    contains_any [] (fxUrlConflictProfile.browser.success_text_any ++
      fxUrlConflictProfile.http.success.body_contains_any) = false ∧
    contains_any [] (fxUrlConflictProfile.browser.failure_text_any ++
      fxUrlConflictProfile.http.failure.body_contains_any) = false ∧
    classify_browser_content [] "ok".data fxUrlConflictProfile =
      ("valid", "Current URL matched success rule") := by
  refine ⟨by decide, by decide, by decide, by decide, by decide, ?_⟩
  decide

/-- C2 (amended): `classify_browser_content` follows blocked > (success xor
failure) > ambiguous/none on the combined text, but in the URL-rule
fallback the success URL rule is checked first and wins: when no text rule
matched, a matching success URL rule yields "valid" regardless of the
failure URL rule; "invalid" requires the failure URL rule to match while
the success URL rule does not; and "unknown" requires neither to match. -/
theorem classify_browser_precedence (p : Profile) (content current_url : List Char) :
    (contains_any content (p.browser.blocked_text_any ++ p.http.blocked.body_contains_any) = true →
      classify_browser_content content current_url p =
        ("blocked", "Blocked text detected in browser content")) ∧
    (contains_any content (p.browser.blocked_text_any ++ p.http.blocked.body_contains_any) = false →
      (contains_any content (p.browser.success_text_any ++ p.http.success.body_contains_any) = true →
        contains_any content (p.browser.failure_text_any ++ p.http.failure.body_contains_any) = false →
        classify_browser_content content current_url p =
          ("valid", "Browser content matched success text")) ∧
      (contains_any content (p.browser.failure_text_any ++ p.http.failure.body_contains_any) = true →
        contains_any content (p.browser.success_text_any ++ p.http.success.body_contains_any) = false →
        classify_browser_content content current_url p =
          ("invalid", "Browser content matched failure text")) ∧
      (contains_any content (p.browser.success_text_any ++ p.http.success.body_contains_any) = true →
        contains_any content (p.browser.failure_text_any ++ p.http.failure.body_contains_any) = true →
        classify_browser_content content current_url p =
          ("unknown", "Browser found both success and failure text")) ∧
      (contains_any content (p.browser.success_text_any ++ p.http.success.body_contains_any) = false →
        contains_any content (p.browser.failure_text_any ++ p.http.failure.body_contains_any) = false →
        (contains_any current_url p.http.success.url_contains_any = true →
          classify_browser_content content current_url p =
            ("valid", "Current URL matched success rule")) ∧
        (contains_any current_url p.http.success.url_contains_any = false →
          contains_any current_url p.http.failure.url_contains_any = true →
          classify_browser_content content current_url p =
            ("invalid", "Current URL matched failure rule")) ∧
        (contains_any current_url p.http.success.url_contains_any = false →
          contains_any current_url p.http.failure.url_contains_any = false →
          classify_browser_content content current_url p =
            ("unknown", "No configured browser rule matched")))) := by
  refine ⟨fun hb => ?_, fun hb => ⟨fun hs hf => ?_, fun hf hs => ?_, fun hs hf => ?_,
    fun hs hf => ⟨fun hsu => ?_, fun hsu hfu => ?_, fun hsu hfu => ?_⟩⟩⟩ <;>
    simp [classify_browser_content, hb, *]

/-- Witness for C2's amended precedence: at the URL-conflict profile, the
success URL rule wins over the simultaneously matching failure URL rule. -/
theorem classify_browser_precedence_witness :
    classify_browser_content [] "ok".data fxUrlConflictProfile =
      ("valid", "Current URL matched success rule") :=
  ((((classify_browser_precedence fxUrlConflictProfile [] "ok".data).2
    (by decide)).2.2.2 (by decide) (by decide)).1 (by decide))

/-- C3 counterexample: a blocked outcome whose reason mentions a CAPTCHA
challenge but whose HTTP status is 429 satisfies the retryability
predicate — the generic retryable-status check fires before the CAPTCHA
check, so CAPTCHA-blocked outcomes are not terminal for every status code. -/
theorem captcha_blocked_retryable_counterexample :
    fxCaptchaBlocked429.status = "blocked" ∧
    reason_mentions_captcha fxCaptchaBlocked429.reason = true ∧
    fxCaptchaBlocked429.http_status = some 429 ∧
    is_retryable_http_result fxCaptchaBlocked429 = true := by
  refine ⟨rfl, by decide, rfl, ?_⟩
  decide

/-- C3 (amended): a CAPTCHA-flavoured blocked outcome is never retryable
provided its HTTP status is not one of the generically retryable statuses
{408, 425, 429, 500, 502, 503, 504}; with a status in that set the generic
check makes it retryable before the CAPTCHA check is reached. -/
theorem captcha_blocked_not_retryable (o : ValidationOutcome)
    (hs : o.status = "blocked")
    (hc : reason_mentions_captcha o.reason = true)
    (hh : (match o.http_status with
           | some st => RETRYABLE_HTTP_STATUSES.contains st
           | none => false) = false) :
    is_retryable_http_result o = false := by
  cases hst : o.http_status with
  | none => simp +decide [is_retryable_http_result, hs, hst]
  | some st =>
    rw [hst] at hh
    have hh2 : st ∉ RETRYABLE_HTTP_STATUSES := by simpa using hh
    simp +decide [is_retryable_http_result, hs, hst]
    exact ⟨hh2, fun _ => hc⟩

/-- Witness for C3's amended claim: the CAPTCHA-blocked outcome with HTTP
status 403 is not retryable. -/
theorem captcha_blocked_not_retryable_witness :
    is_retryable_http_result fxCaptchaBlocked403 = false :=
  captcha_blocked_not_retryable fxCaptchaBlocked403 rfl (by decide) (by decide)

/-- C4: the HTTP stage makes at most `max_retries + 1` attempts and returns
the last attempt's outcome with its `attempts` field equal to the attempt
number actually reached; and the browser worker's composed final outcome
records HTTP-stage attempts plus browser-stage attempts (the browser stage
always reports one attempt). -/
theorem http_attempts_bounded (p : Profile) (code : List Char)
    (redeem_url_override : Option (List Char))
    (max_retries request_delay_ms : Nat) (net : Nat → NetResult) :
    (run_http_validation p code redeem_url_override max_retries request_delay_ms net).attempts ≤
      max_retries + 1 ∧
    (build_http_request p code redeem_url_override ≠ none →
      ∃ k, 1 ≤ k ∧ k ≤ max_retries + 1 ∧
        run_http_validation p code redeem_url_override max_retries request_delay_ms net =
          http_attempt_outcome p net k ∧
        (run_http_validation p code redeem_url_override max_retries request_delay_ms net).attempts = k) ∧
    (∀ prior browser_outcome : ValidationOutcome, browser_outcome.attempts = 1 →
      (compose_browser_final prior browser_outcome).attempts =
        prior.attempts + browser_outcome.attempts) ∧
    (∀ (p2 : Profile) (code2 : List Char) (ov2 : Option (List Char)) (env : BrowserEnv),
      (run_browser_validation p2 code2 ov2 env).attempts = 1) := by
  refine ⟨?_, ?_, ?_, ?_⟩
  · cases hb : build_http_request p code redeem_url_override with
    | none => simp [run_http_validation, hb]
    | some rd =>
      obtain ⟨k, h1, h2, h3⟩ := run_http_loop_spec p net (max 1 (max_retries + 1) - 1) 1
      have hmax : max 1 (max_retries + 1) - 1 = max_retries := by omega
      rw [hmax] at h3
      have hk : (run_http_validation p code redeem_url_override max_retries
          request_delay_ms net).attempts = k := by
        simp [run_http_validation, hb, h3, http_attempt_outcome_attempts]
      rw [hk]
      omega
  · intro hne
    cases hb : build_http_request p code redeem_url_override with
    | none => exact absurd hb hne
    | some rd =>
      obtain ⟨k, h1, h2, h3⟩ := run_http_loop_spec p net (max 1 (max_retries + 1) - 1) 1
      have hmax : max 1 (max_retries + 1) - 1 = max_retries := by omega
      rw [hmax] at h3
      refine ⟨k, h1, by omega, ?_, ?_⟩
      · simpa [run_http_validation, hb] using h3
      · simp [run_http_validation, hb, h3, http_attempt_outcome_attempts]
  · intro prior browser_outcome hbo
    simp [compose_browser_final, hbo]
  · intro p2 code2 ov2 env
    unfold run_browser_validation
    cases env <;> dsimp only <;> split <;> (try split) <;> rfl

/-- Witness for C4: three attempts are made (and recorded) when every
response is a retryable 500 and `max_retries = 2`. -/
theorem http_attempts_bounded_witness :
    build_http_request fxProfile "A".data none ≠ none ∧
    ∃ k, 1 ≤ k ∧ k ≤ 3 ∧
      run_http_validation fxProfile "A".data none 2 0 fxNet500 =
        http_attempt_outcome fxProfile fxNet500 k ∧
      (run_http_validation fxProfile "A".data none 2 0 fxNet500).attempts = k :=
  ⟨by decide, (http_attempts_bounded fxProfile "A".data none 2 0 fxNet500).2.1 (by decide)⟩

/-- C5: rerun-uncertain resets exactly the job's results whose status is
unknown, blocked or error to pending with attempts 0 and diagnostic fields
cleared, leaves every other result row unchanged, and either relaunches the
job as "queued" (when such a row exists) or marks it "completed" without
relaunching (when none exists); other jobs' rows are untouched. -/
theorem rerun_uncertain_spec (now job_id : String) (s : Store) (job : JobRow)
    (hj : get_job s job_id = some job) (hrun : job.status ≠ "running") :
    ∃ (s2 : Store) (launched : Bool),
      api_rerun_uncertain now job_id s = .ok (s2, launched) ∧
      List.Forall₂ (fun r r2 =>
        (r.job_id = job_id ∧ r.status ∈ (["unknown", "blocked", "error"] : List String) →
          r2 = { r with status := "pending", source := "none", reason := none,
                        attempts := 0, http_status := none, redirect_url := none,
                        checked_at := none, updated_at := now }) ∧
        (¬(r.job_id = job_id ∧ r.status ∈ (["unknown", "blocked", "error"] : List String)) →
          r2 = r)) s.results s2.results ∧
      ((∃ r ∈ s.results, r.job_id = job_id ∧
          r.status ∈ (["unknown", "blocked", "error"] : List String)) →
        launched = true ∧ ∀ j ∈ s2.jobs, j.id = job_id → j.status = "queued") ∧
      ((¬∃ r ∈ s.results, r.job_id = job_id ∧
          r.status ∈ (["unknown", "blocked", "error"] : List String)) →
        launched = false ∧ ∀ j ∈ s2.jobs, j.id = job_id → j.status = "completed") ∧
      (∀ j ∈ s.jobs, j.id ≠ job_id → j ∈ s2.jobs) := by
  have hhits : ∀ r : ResultRow, rerun_hits job_id r = true ↔
      (r.job_id = job_id ∧ r.status ∈ (["unknown", "blocked", "error"] : List String)) := by
    intro r
    simp [rerun_hits]
  have heq : api_rerun_uncertain now job_id s =
      (if (s.results.filter (rerun_hits job_id)).length = 0
       then .ok (mark_job_completed now job_id (rerun_uncertain_results now job_id s).1, false)
       else .ok ((rerun_uncertain_results now job_id s).1, true)) := by
    simp only [api_rerun_uncertain, hj]
    rw [if_neg hrun]
    rfl
  have hfa : List.Forall₂ (fun (r r2 : ResultRow) =>
      (r.job_id = job_id ∧ r.status ∈ (["unknown", "blocked", "error"] : List String) →
        r2 = { r with status := "pending", source := "none", reason := none,
                      attempts := 0, http_status := none, redirect_url := none,
                      checked_at := none, updated_at := now }) ∧
      (¬(r.job_id = job_id ∧ r.status ∈ (["unknown", "blocked", "error"] : List String)) →
        r2 = r)) s.results ((rerun_uncertain_results now job_id s).1.results) := by
    refine forall2_map_self _ _ _ ?_
    intro r hr
    constructor
    · intro hu
      rw [if_pos ((hhits r).mpr hu)]
    · intro hu
      rw [if_neg]
      intro hcon
      exact hu ((hhits r).mp hcon)
  have hex_iff : ((s.results.filter (rerun_hits job_id)).length = 0) ↔
      ¬∃ r ∈ s.results, r.job_id = job_id ∧
        r.status ∈ (["unknown", "blocked", "error"] : List String) := by
    rw [List.length_eq_zero, List.filter_eq_nil_iff]
    constructor
    · rintro h ⟨r, hr, hu⟩
      exact h r hr ((hhits r).mpr hu)
    · intro h r hr hb
      exact h ⟨r, hr, (hhits r).mp hb⟩
  by_cases hc : (s.results.filter (rerun_hits job_id)).length = 0
  · refine ⟨mark_job_completed now job_id (rerun_uncertain_results now job_id s).1, false,
      by rw [heq, if_pos hc], hfa, ?_, ?_, ?_⟩
    · intro hex
      exact absurd hex (hex_iff.mp hc)
    · intro _
      refine ⟨rfl, ?_⟩
      intro j hjmem hjid
      rcases List.mem_map.mp hjmem with ⟨j1, hj1, rfl⟩
      by_cases h1 : (j1.id == job_id) = true
      · rw [if_pos h1]
      · rw [if_neg h1] at hjid ⊢
        exact absurd (beq_iff_eq.mpr hjid) (by simpa using h1)
    · intro j hjmem hjid
      have h1 : j ∈ (rerun_uncertain_results now job_id s).1.jobs :=
        List.mem_map.mpr ⟨j, hjmem, by simp [hjid]⟩
      exact List.mem_map.mpr ⟨j, h1, by simp [hjid]⟩
  · refine ⟨(rerun_uncertain_results now job_id s).1, true,
      by rw [heq, if_neg hc], hfa, ?_, ?_, ?_⟩
    · intro _
      refine ⟨rfl, ?_⟩
      intro j hjmem hjid
      rcases List.mem_map.mp hjmem with ⟨j0, _, rfl⟩
      by_cases h0 : (j0.id == job_id) = true
      · rw [if_pos h0]
      · rw [if_neg h0] at hjid ⊢
        exact absurd (beq_iff_eq.mpr hjid) (by simpa using h0)
    · intro hnex
      exact absurd (hex_iff.mpr hnex) hc
    · intro j hjmem hjid
      exact List.mem_map.mpr ⟨j, hjmem, by simp [hjid]⟩

/-- Witness for C5: in a store whose job "j1" has one "unknown" and one
"valid" result, rerun-uncertain relaunches the job. -/
theorem rerun_uncertain_spec_witness :
    ∃ (s2 : Store) (launched : Bool),
      api_rerun_uncertain "t2" "j1" fxStore = .ok (s2, launched) ∧
      List.Forall₂ (fun r r2 =>
        (r.job_id = "j1" ∧ r.status ∈ (["unknown", "blocked", "error"] : List String) →
          r2 = { r with status := "pending", source := "none", reason := none,
                        attempts := 0, http_status := none, redirect_url := none,
                        checked_at := none, updated_at := "t2" }) ∧
        (¬(r.job_id = "j1" ∧ r.status ∈ (["unknown", "blocked", "error"] : List String)) →
          r2 = r)) fxStore.results s2.results ∧
      ((∃ r ∈ fxStore.results, r.job_id = "j1" ∧
          r.status ∈ (["unknown", "blocked", "error"] : List String)) →
        launched = true ∧ ∀ j ∈ s2.jobs, j.id = "j1" → j.status = "queued") ∧
      ((¬∃ r ∈ fxStore.results, r.job_id = "j1" ∧
          r.status ∈ (["unknown", "blocked", "error"] : List String)) →
        launched = false ∧ ∀ j ∈ s2.jobs, j.id = "j1" → j.status = "completed") ∧
      (∀ j ∈ fxStore.jobs, j.id ≠ "j1" → j ∈ s2.jobs) :=
  rerun_uncertain_spec "t2" "j1" fxStore fxJob (by decide) (by decide)

/-- C6: startup recovery (run before queued jobs are relaunched) resets
every result left in "running" or "queued_browser" to "pending" with stage
and diagnostic reason cleared, resets every job left in "running" to
"queued" with a "Recovered after restart" note, leaves results and jobs in
any other status unchanged, and every formerly running job is in the
relaunch list. -/
theorem startup_recovery_spec (now : String) (s : Store) :
    ∃ (s2 : Store) (launched : List String),
      lifespan_startup now s = (s2, launched) ∧
      List.Forall₂ (fun r r2 : ResultRow =>
        (r.status ∈ (["running", "queued_browser"] : List String) →
          r2 = { r with status := "pending", source := "none", reason := none,
                        updated_at := now }) ∧
        (r.status ∉ (["running", "queued_browser"] : List String) → r2 = r))
        s.results s2.results ∧
      List.Forall₂ (fun j j2 : JobRow =>
        (j.status = "running" →
          j2 = { j with status := "queued", started_at := none, completed_at := none,
                        notes := some "Recovered after restart" }) ∧
        (j.status ≠ "running" → j2 = j)) s.jobs s2.jobs ∧
      (∀ j ∈ s.jobs, j.status = "running" → j.id ∈ launched) := by
  refine ⟨(lifespan_startup now s).1, (lifespan_startup now s).2, rfl, ?_, ?_, ?_⟩
  · refine forall2_map_self _ _ _ ?_
    intro r hr
    constructor
    · intro hin
      rw [if_pos (by simpa using hin)]
    · intro hout
      rw [if_neg (by simpa using hout)]
  · refine forall2_map_self _ _ _ ?_
    intro j hj
    constructor
    · intro hin
      rw [if_pos (beq_iff_eq.mpr hin)]
    · intro hout
      rw [if_neg (by simpa using hout)]
  · intro j hjmem hjs
    have hmem2 : ({ j with status := "queued", started_at := none, completed_at := none, notes := some "Recovered after restart" } : JobRow) ∈ (reset_stuck_jobs now s).jobs :=
      List.mem_map.mpr ⟨j, hjmem, by rw [if_pos (beq_iff_eq.mpr hjs)]⟩
    have hfil : ({ j with status := "queued", started_at := none, completed_at := none, notes := some "Recovered after restart" } : JobRow) ∈ (reset_stuck_jobs now s).jobs.filter (fun j => j.status == "queued") :=
      List.mem_filter.mpr ⟨hmem2, by simp⟩
    exact List.mem_map.mpr ⟨_, hfil, rfl⟩

/-- Witness for C6: recovering a store with a running job owning a
queued_browser result. -/
theorem startup_recovery_spec_witness :
    ∃ (s2 : Store) (launched : List String),
      lifespan_startup "t9" fxRecoverStore = (s2, launched) ∧
      List.Forall₂ (fun r r2 : ResultRow =>
        (r.status ∈ (["running", "queued_browser"] : List String) →
          r2 = { r with status := "pending", source := "none", reason := none,
                        updated_at := "t9" }) ∧
        (r.status ∉ (["running", "queued_browser"] : List String) → r2 = r))
        fxRecoverStore.results s2.results ∧
      List.Forall₂ (fun j j2 : JobRow =>
        (j.status = "running" →
          j2 = { j with status := "queued", started_at := none, completed_at := none,
                        notes := some "Recovered after restart" }) ∧
        (j.status ≠ "running" → j2 = j)) fxRecoverStore.jobs s2.jobs ∧
      (∀ j ∈ fxRecoverStore.jobs, j.status = "running" → j.id ∈ launched) :=
  startup_recovery_spec "t9" fxRecoverStore

/-- C7: creating a job with its codes is atomic: on success the store
gains the job row with status "queued" and one pending result row per code
(source "none", attempts 0) and keeps all previous rows; on any failure
during insertion the store is unchanged and the error is re-raised
(`ok = false`). -/
theorem create_job_atomic (fail_inject : Bool) (now : String) (prm : JobParams)
    (codes : List String) (s : Store) :
    (∀ s2 : Store, create_job_with_codes fail_inject now prm codes s = (s2, false) →
      s2 = s) ∧
    (fail_inject = true → (create_job_with_codes fail_inject now prm codes s).2 = false) ∧
    (∀ s2 : Store, create_job_with_codes fail_inject now prm codes s = (s2, true) →
      codes.Nodup ∧
      (∃ j ∈ s2.jobs, j.id = prm.job_id ∧ j.status = "queued" ∧
        j.total_codes = codes.length) ∧
      (∀ c ∈ codes, ∃ r ∈ s2.results, r.job_id = prm.job_id ∧ r.code = c ∧
        r.status = "pending" ∧ r.source = "none" ∧ r.attempts = 0) ∧
      s2.results.length = s.results.length + codes.length ∧
      (∀ j ∈ s.jobs, j ∈ s2.jobs) ∧ (∀ r ∈ s.results, r ∈ s2.results)) := by
  by_cases hfail : fail_inject = true ∨ (s.jobs.any fun j => j.id == prm.job_id) = true ∨
      ¬ codes.Nodup ∨
      (∃ c ∈ codes, ∃ r ∈ s.results, r.job_id = prm.job_id ∧ r.code = c)
  · have hval : create_job_with_codes fail_inject now prm codes s = (s, false) := by
      rw [create_job_with_codes, if_pos hfail]
    refine ⟨?_, ?_, ?_⟩
    · intro s2 h2
      rw [hval] at h2
      injection h2 with h _
      exact h.symm
    · intro _
      rw [hval]
    · intro s2 h2
      rw [hval] at h2
      injection h2 with _ hb
      exact absurd hb (by simp)
  · have hnodup : codes.Nodup :=
      not_not.mp (not_or.mp (not_or.mp (not_or.mp hfail).2).2).1
    have hval : create_job_with_codes fail_inject now prm codes s =
        ({ jobs := s.jobs ++ [{ id := prm.job_id, profile_name := prm.profile_name, redeem_url_override := prm.redeem_url_override, created_by := prm.created_by, status := "queued", total_codes := codes.length, created_at := now, started_at := none, completed_at := none, http_concurrency := prm.http_concurrency, browser_concurrency := prm.browser_concurrency, max_retries := prm.max_retries, request_delay_ms := prm.request_delay_ms, notes := none }],
           results := s.results ++ codes.enum.map fun ic =>
             ({ id := s.results.length + ic.1 + 1, job_id := prm.job_id, code := ic.2, status := "pending", source := "none", reason := none, attempts := 0, http_status := none, redirect_url := none, checked_at := none, created_at := now, updated_at := now } : ResultRow) }, true) := by
      rw [create_job_with_codes, if_neg hfail]
    refine ⟨?_, ?_, ?_⟩
    · intro s2 h2
      rw [hval] at h2
      injection h2 with _ hb
      exact absurd hb (by simp)
    · intro hf
      exact absurd (Or.inl hf) hfail
    · intro s2 h2
      rw [hval] at h2
      injection h2 with hs _
      subst hs
      refine ⟨hnodup, ?_, ?_, by simp [List.enum_length], fun j hj => by simp [hj],
        fun r hr => by simp [hr]⟩
      · exact ⟨{ id := prm.job_id, profile_name := prm.profile_name, redeem_url_override := prm.redeem_url_override, created_by := prm.created_by, status := "queued", total_codes := codes.length, created_at := now, started_at := none, completed_at := none, http_concurrency := prm.http_concurrency, browser_concurrency := prm.browser_concurrency, max_retries := prm.max_retries, request_delay_ms := prm.request_delay_ms, notes := none }, by simp, rfl, rfl, rfl⟩
      · intro c hc
        have hcodes : c ∈ (codes.enum.map fun ic =>
            ({ id := s.results.length + ic.1 + 1, job_id := prm.job_id, code := ic.2, status := "pending", source := "none", reason := none, attempts := 0, http_status := none, redirect_url := none, checked_at := none, created_at := now, updated_at := now } : ResultRow)).map (·.code) := by
          rw [List.map_map]
          have hcomp : ((fun r : ResultRow => r.code) ∘ fun ic : Nat × String =>
              ({ id := s.results.length + ic.1 + 1, job_id := prm.job_id, code := ic.2, status := "pending", source := "none", reason := none, attempts := 0, http_status := none, redirect_url := none, checked_at := none, created_at := now, updated_at := now } : ResultRow)) = Prod.snd := rfl
          rw [hcomp]
          rw [show codes.enum = List.enumFrom 0 codes from rfl, List.enumFrom_map_snd]
          exact hc
        rcases List.mem_map.mp hcodes with ⟨r, hrmem, hrc⟩
        refine ⟨r, by simp [hrmem], ?_, hrc, ?_, ?_, ?_⟩ <;>
          rcases List.mem_map.mp hrmem with ⟨ic, _, rfl⟩ <;> rfl

/-- Witness for C7: creating job "j9" with codes ["A1", "B2"] in the
sample store succeeds. -/
theorem create_job_atomic_witness :
    ∃ s2 : Store, create_job_with_codes false "t0" fxJobParams ["A1", "B2"] fxStore = (s2, true) ∧
      (∃ j ∈ s2.jobs, j.id = "j9" ∧ j.status = "queued" ∧ j.total_codes = 2) ∧
      (∀ c ∈ (["A1", "B2"] : List String), ∃ r ∈ s2.results, r.job_id = "j9" ∧ r.code = c ∧
        r.status = "pending" ∧ r.source = "none" ∧ r.attempts = 0) :=
  ⟨(create_job_with_codes false "t0" fxJobParams ["A1", "B2"] fxStore).1, by decide,
    by
      have h := (create_job_atomic false "t0" fxJobParams ["A1", "B2"] fxStore).2.2
        (create_job_with_codes false "t0" fxJobParams ["A1", "B2"] fxStore).1 (by decide)
      exact ⟨by simpa using h.2.1, by simpa using h.2.2.1⟩⟩

/-- C8: for every raw profile (including one declaring no custom blocked
text) the normalised HTTP blocked body list and browser blocked-text list
each contain every built-in blocked keyword (up to the case-insensitive
normalisation the lists are deduplicated under), each list has no two
entries equal after lowercasing and trimming, and with no custom blocked
text the built-in keywords appear verbatim. -/
theorem blocked_lists_contain_builtins (raw_http_blocked raw_browser_blocked : Json) :
    (∀ kw ∈ DEFAULT_BLOCKED_KEYWORDS,
      ∃ e ∈ (normalize_blocked_http raw_http_blocked).body_contains_any,
        normalize_text e = normalize_text kw) ∧
    (∀ kw ∈ DEFAULT_BLOCKED_KEYWORDS,
      ∃ e ∈ normalize_blocked_browser raw_browser_blocked,
        normalize_text e = normalize_text kw) ∧
    ((normalize_blocked_http raw_http_blocked).body_contains_any.Pairwise
      (fun a b => normalize_text a ≠ normalize_text b)) ∧
    ((normalize_blocked_browser raw_browser_blocked).Pairwise
      (fun a b => normalize_text a ≠ normalize_text b)) ∧
    ((normalize_rule raw_http_blocked).body_contains_any = [] →
      ∀ kw ∈ DEFAULT_BLOCKED_KEYWORDS,
        kw ∈ (normalize_blocked_http raw_http_blocked).body_contains_any) ∧
    (string_list raw_browser_blocked = [] →
      ∀ kw ∈ DEFAULT_BLOCKED_KEYWORDS,
        kw ∈ normalize_blocked_browser raw_browser_blocked) := by
  have hbody : (normalize_blocked_http raw_http_blocked).body_contains_any =
      dedupe_strings ((normalize_rule raw_http_blocked).body_contains_any ++
        DEFAULT_BLOCKED_KEYWORDS) := rfl
  have hbrow : normalize_blocked_browser raw_browser_blocked =
      dedupe_strings (string_list raw_browser_blocked ++ DEFAULT_BLOCKED_KEYWORDS) := rfl
  have hkwne : ∀ kw ∈ DEFAULT_BLOCKED_KEYWORDS,
      (pyStrip (pyLowerStr kw)).isEmpty = false := by decide
  have hded : dedupe_strings DEFAULT_BLOCKED_KEYWORDS = DEFAULT_BLOCKED_KEYWORDS := by decide
  refine ⟨?_, ?_, ?_, ?_, ?_, ?_⟩
  · intro kw hkw
    rw [hbody]
    exact dedupe_go_mem _ (hkwne kw hkw) _ [] (by simp)
      ⟨kw, List.mem_append_right _ hkw, rfl⟩
  · intro kw hkw
    rw [hbrow]
    exact dedupe_go_mem _ (hkwne kw hkw) _ [] (by simp)
      ⟨kw, List.mem_append_right _ hkw, rfl⟩
  · rw [hbody]
    exact (dedupe_go_pairwise _ []).1
  · rw [hbrow]
    exact (dedupe_go_pairwise _ []).1
  · intro hempty kw hkw
    rw [hbody, hempty, List.nil_append, hded]
    exact hkw
  · intro hempty kw hkw
    rw [hbrow, hempty, List.nil_append, hded]
    exact hkw

/-- Witness for C8: a raw profile with no `blocked` section at all still
gets the verbatim "captcha" keyword in its HTTP blocked body list. -/
theorem blocked_lists_contain_builtins_witness :
    (normalize_rule Json.null).body_contains_any = [] ∧
    "captcha".data ∈ (normalize_blocked_http Json.null).body_contains_any :=
  ⟨by decide,
    (blocked_lists_contain_builtins Json.null Json.null).2.2.2.2.1 (by decide)
      "captcha".data (by decide)⟩

/-- C10: loading HTTP cookies from a session-state file is total — a
missing file, an unreadable or unparsable document, a non-object payload,
a missing or non-list `cookies` field all yield an empty jar; non-dict
entries and entries whose name strips to empty are skipped; and an entry's
path defaults to "/" when its raw path field strips to blank. -/
theorem load_cookies_total_and_defaults :
    (load_http_cookies_from_storage_state none = []) ∧
    (load_http_cookies_from_storage_state (some none) = []) ∧
    (∀ payload : Json, payload.isObj = false →
      load_http_cookies_from_storage_state (some (some payload)) = []) ∧
    (∀ payload : Json, jsonGet payload "cookies".data = none →
      load_http_cookies_from_storage_state (some (some payload)) = []) ∧
    (∀ payload cv : Json, jsonGet payload "cookies".data = some cv → cv.isArr = false →
      load_http_cookies_from_storage_state (some (some payload)) = []) ∧
    (∀ (e : Json) (rest : List Json) (jar : List CookieEntry),
      parse_cookie_entry e = none →
      load_cookie_entries (e :: rest) jar = load_cookie_entries rest jar) ∧
    (∀ e : Json, e.isObj = false → parse_cookie_entry e = none) ∧
    (∀ fields : List (List Char × Json),
      pyStrip (Json.strPy ((jsonGet (Json.obj fields) "name".data).getD (.str []))) = [] →
      parse_cookie_entry (Json.obj fields) = none) ∧
    (∀ (e : Json) (c : CookieEntry), parse_cookie_entry e = some c →
      pyStrip (Json.strPy ((jsonGet e "path".data).getD (.str "/".data))) = [] →
      c.path = "/".data) := by
  refine ⟨rfl, rfl, ?_, ?_, ?_, ?_, ?_, ?_, ?_⟩
  · intro payload hobj
    cases payload <;> first | rfl | simp [Json.isObj] at hobj
  · intro payload hget
    cases payload <;> simp [load_http_cookies_from_storage_state, hget]
  · intro payload cv hget harr
    cases payload with
    | obj fields =>
      cases cv <;>
        simp [load_http_cookies_from_storage_state, hget, Json.isArr] at harr ⊢
    | _ => simp [jsonGet] at hget
  · intro e rest jar hskip
    simp [load_cookie_entries, hskip]
  · intro e hobj
    cases e <;> first | rfl | simp [Json.isObj] at hobj
  · intro fields hname
    simp [parse_cookie_entry, hname]
  · intro e c hpc hblank
    cases e with
    | obj fields =>
      by_cases hn : (pyStrip (Json.strPy ((jsonGet (Json.obj fields)
          "name".data).getD (.str [])))).isEmpty
      · simp [parse_cookie_entry, hn] at hpc
      · simp only [parse_cookie_entry, hblank] at hpc
        rw [if_neg (by simpa using hn)] at hpc
        have := congrArg CookieEntry.path (Option.some.inj hpc)
        simpa using this.symm
    | _ => simp [parse_cookie_entry] at hpc

/-- Witness for C10: a numeric (non-dict) entry parses to nothing and is
skipped by the loop, and a non-object payload yields the empty jar. -/
theorem load_cookies_total_and_defaults_witness :
    parse_cookie_entry (Json.num 5) = none ∧
    load_cookie_entries [Json.num 5] [] = load_cookie_entries [] [] ∧
    load_http_cookies_from_storage_state (some (some (Json.str "x".data))) = [] :=
  ⟨load_cookies_total_and_defaults.2.2.2.2.2.2.1 (Json.num 5) rfl,
   load_cookies_total_and_defaults.2.2.2.2.2.1 (Json.num 5) [] [] rfl,
   load_cookies_total_and_defaults.2.2.1 (Json.str "x".data) rfl⟩

end RedeemChecker
